import Mathlib

/-!
Shallow embedding of the PCA9641 I2C bus-master-selector driver
(src/i2c-mux-pca9641.c) and proofs about its arbitration protocol.

Register transactions are recorded in an explicit transaction log (`Xfer`).
Transport results are supplied by oracles: `readResult`/`writeResult` for a
single `arbitrate` step, and per-iteration oracle functions for the polling
loop of `pca9641_select_chan`, together with a jiffies oracle `jif` giving
the clock value at each loop-condition check.  The polling loop is embedded
fuel-indexed (`selectFuel`); `none` means the fuel ran out before the loop
returned.
-/

namespace PCA9641

/- Register addresses (src lines 47-50). -/

def PCA9641_CONTR : Nat := 0x01

def PCA9641_STATUS : Nat := 0x02

def PCA9641_RT : Nat := 0x03

def PCA9641_AUTO_INC : Nat := 0x80

/- Control-register bits (src lines 52-59); BIT(n) = 2^n. -/

def PCA9641_CTL_LOCK_REQ : Nat := 1

def PCA9641_CTL_LOCK_GRANT : Nat := 2

def PCA9641_CTL_BUS_CONNECT : Nat := 4

def PCA9641_CTL_IDLE_TIMER_DIS : Nat := 32

/- Derived predicates (src lines 70-72). -/

def CONNECT : Nat :=
  PCA9641_CTL_LOCK_REQ ||| PCA9641_CTL_LOCK_GRANT ||| PCA9641_CTL_BUS_CONNECT

def connected (x : Nat) : Bool := (x &&& CONNECT) == CONNECT

def requested (x : Nat) : Bool := (x &&& CONNECT) == PCA9641_CTL_LOCK_REQ

/- Timing constants (src lines 75-82).  ARB_TIMEOUT is HZ/4 jiffies. -/

def RESERVE_TIME : Nat := 20

def ARB_TIMEOUT (HZ : Nat) : Nat := HZ / 4

def SELECT_DELAY_SHORT : Nat := 0

def SELECT_DELAY_LONG : Nat := 1000

/-- Linux errno ETIMEDOUT; pca9641_select_chan returns -ETIMEDOUT. -/
def ETIMEDOUT : Int := 110

/-- The driver state (struct pca9641, src lines 84-87): the only mutable
session field is select_timeout (the retry delay in microseconds). -/
structure Pca9641 where
  select_timeout : Nat
deriving Repr, DecidableEq

/-- One register transaction on the transport, as issued by the driver:
a byte read (with the transport result), a byte write, or a two-byte
block write (pca9641_reg_write_multi). -/
inductive Xfer where
  | readReg : Nat → Int → Xfer
  | writeReg : Nat → Nat → Xfer
  | writeMulti : Nat → Nat → Nat → Xfer
deriving Repr, DecidableEq

/-- pca9641_arbitrate (src lines 171-193).  `readResult` is the transport
result of the control-register read (negative = transport error, otherwise
the register byte); `writeResult` is the transport result of the block
write, which the C code discards.  Returns the C return value, the updated
driver state, and the transaction log of this call. -/
def pca9641_arbitrate (readResult writeResult : Int) (st : Pca9641) :
    Int × Pca9641 × List Xfer :=
  if readResult < 0 then
    (readResult, st, [Xfer.readReg PCA9641_CONTR readResult])
  else
    let reg := readResult.toNat
    if connected reg then
      (1, st, [Xfer.readReg PCA9641_CONTR readResult])
    else if requested reg then
      (0, { st with select_timeout := SELECT_DELAY_LONG },
        [Xfer.readReg PCA9641_CONTR readResult])
    else
      (0, { st with select_timeout := SELECT_DELAY_SHORT },
        [Xfer.readReg PCA9641_CONTR readResult,
         Xfer.writeMulti (PCA9641_CONTR ||| PCA9641_AUTO_INC)
           (PCA9641_CTL_LOCK_REQ ||| PCA9641_CTL_BUS_CONNECT |||
             PCA9641_CTL_IDLE_TIMER_DIS)
           RESERVE_TIME])

/-- The do-while polling loop of pca9641_select_chan (src lines 202-213),
fuel-indexed.  Iteration n uses read oracle `reads n`, write oracle `wr n`,
and jiffies value `jif n` at the loop-condition check (the sleep of the
iteration happens between the arbitrate call and that check and is
otherwise unmodelled).  The loop keeps going while time_is_after_eq_jiffies
(timeout) holds, i.e. while jif n <= deadline.  Returns the C return value,
the final driver state, and the per-iteration transaction logs; `none`
means the fuel was exhausted before the loop returned. -/
def selectFuel (reads wr : Nat → Int) (jif : Nat → Nat) (deadline : Nat)
    (st : Pca9641) (n : Nat) : Nat → Option (Int × Pca9641 × List (List Xfer))
  | 0 => none
  | fuel + 1 =>
    let r := pca9641_arbitrate (reads n) (wr n) st
    if r.1 ≠ 0 then
      some ((if r.1 < 0 then r.1 else 0), r.2.1, [r.2.2])
    else if jif n ≤ deadline then
      match selectFuel reads wr jif deadline r.2.1 (n + 1) fuel with
      | none => none
      | some (res, stf, tr) => some (res, stf, r.2.2 :: tr)
    else
      some (-ETIMEDOUT, r.2.1, [r.2.2])

/-- pca9641_select_chan (src lines 195-214): computes the deadline
jiffies0 + ARB_TIMEOUT at entry and runs the polling loop.  The channel
argument `chan` mirrors the C parameter and is unused by the body. -/
def pca9641_select_chan (HZ : Nat) (reads wr : Nat → Int) (jif : Nat → Nat)
    (jiffies0 : Nat) (st : Pca9641) (chan : Nat) (fuel : Nat) :
    Option (Int × Pca9641 × List (List Xfer)) :=
  selectFuel reads wr jif (jiffies0 + ARB_TIMEOUT HZ) st 0 fuel

/-- Device register file: value of each register address. -/
def applyWrite (regs : Nat → Nat) (r v : Nat) : Nat → Nat :=
  fun a => if a = r then v else regs a

/-- pca9641_release_bus (src lines 158-161): writes 0x00 to the control
register; the function is void, so the transport result `writeResult` of
that write is discarded.  Returns the updated register file and the
transaction log. -/
def pca9641_release_bus (writeResult : Int) (regs : Nat → Nat) :
    (Nat → Nat) × List Xfer :=
  (applyWrite regs PCA9641_CONTR 0x00, [Xfer.writeReg PCA9641_CONTR 0x00])

/-- pca9641_release_chan (src lines 216-223): calls pca9641_release_bus and
returns 0.  The channel argument `chan` mirrors the C parameter and is
unused by the body. -/
def pca9641_release_chan (writeResult : Int) (regs : Nat → Nat) (chan : Nat) :
    Int × (Nat → Nat) × List Xfer :=
  let r := pca9641_release_bus writeResult regs
  (0, r.1, r.2)

/-- Claim C1: for every 8-bit control-register value read by arbitrate in
which LOCK_REQ, LOCK_GRANT and BUS_CONNECT are all set (the connected
predicate), arbitrate returns 1 (Acquired) and its transaction log is the
single read: no register write is issued. -/
theorem arbitrate_connected_acquired_no_write (r : Nat) (w : Int)
    (st : Pca9641) (h8 : r < 256) (hc : connected r = true) :
    (pca9641_arbitrate (Int.ofNat r) w st).1 = 1 ∧
    (pca9641_arbitrate (Int.ofNat r) w st).2.2 =
      [Xfer.readReg PCA9641_CONTR (Int.ofNat r)] := by
  have h0 : ¬ Int.ofNat r < 0 := Int.not_lt.mpr (Int.ofNat_nonneg r)
  unfold pca9641_arbitrate
  rw [if_neg h0]
  simp [Int.toNat_ofNat, hc]

/-- Witness for C1 at r = 7 (all three bits set). -/
theorem arbitrate_connected_acquired_no_write_witness :
    (7 : Nat) < 256 ∧ connected 7 = true ∧
    ((pca9641_arbitrate (Int.ofNat 7) 0 ⟨0⟩).1 = 1 ∧
     (pca9641_arbitrate (Int.ofNat 7) 0 ⟨0⟩).2.2 =
       [Xfer.readReg PCA9641_CONTR (Int.ofNat 7)]) :=
  ⟨by decide, by decide,
    arbitrate_connected_acquired_no_write 7 0 ⟨0⟩ (by decide) (by decide)⟩

/-- Claim C2: for every 8-bit control-register value read by arbitrate in
which, among LOCK_REQ, LOCK_GRANT and BUS_CONNECT, exactly LOCK_REQ is set
(the requested predicate), arbitrate returns 0 (NotAcquired), sets
select_timeout to SELECT_DELAY_LONG (1000 microseconds), and issues no
register write. -/
theorem arbitrate_requested_long_delay_no_write (r : Nat) (w : Int)
    (st : Pca9641) (h8 : r < 256) (hr : requested r = true) :
    (pca9641_arbitrate (Int.ofNat r) w st).1 = 0 ∧
    (pca9641_arbitrate (Int.ofNat r) w st).2.1.select_timeout =
      SELECT_DELAY_LONG ∧
    (pca9641_arbitrate (Int.ofNat r) w st).2.2 =
      [Xfer.readReg PCA9641_CONTR (Int.ofNat r)] := by
  have hc : connected r = false := by
    revert hr
    simp [connected, requested, CONNECT, PCA9641_CTL_LOCK_REQ,
      PCA9641_CTL_LOCK_GRANT, PCA9641_CTL_BUS_CONNECT]
    intro hr
    omega
  have h0 : ¬ Int.ofNat r < 0 := Int.not_lt.mpr (Int.ofNat_nonneg r)
  unfold pca9641_arbitrate
  rw [if_neg h0]
  simp [Int.toNat_ofNat, hc, hr]

/-- Witness for C2 at r = 1 (only LOCK_REQ set). -/
theorem arbitrate_requested_long_delay_no_write_witness :
    (1 : Nat) < 256 ∧ requested 1 = true ∧
    ((pca9641_arbitrate (Int.ofNat 1) 0 ⟨0⟩).1 = 0 ∧
     (pca9641_arbitrate (Int.ofNat 1) 0 ⟨0⟩).2.1.select_timeout =
       SELECT_DELAY_LONG ∧
     (pca9641_arbitrate (Int.ofNat 1) 0 ⟨0⟩).2.2 =
       [Xfer.readReg PCA9641_CONTR (Int.ofNat 1)]) :=
  ⟨by decide, by decide,
    arbitrate_requested_long_delay_no_write 1 0 ⟨0⟩ (by decide) (by decide)⟩

/-- Claim C3: for every 8-bit control-register value read by arbitrate in
which neither connected nor requested holds, arbitrate issues exactly one
block write, to CONTROL with the auto-increment bit, carrying control value
LOCK_REQ|BUS_CONNECT|IDLE_TIMER_DIS and reserve-time 20, sets
select_timeout to SELECT_DELAY_SHORT (0), and returns 0 (NotAcquired). -/
theorem arbitrate_idle_requests_bus (r : Nat) (w : Int) (st : Pca9641)
    (h8 : r < 256) (hc : connected r = false) (hr : requested r = false) :
    (pca9641_arbitrate (Int.ofNat r) w st).1 = 0 ∧
    (pca9641_arbitrate (Int.ofNat r) w st).2.1.select_timeout =
      SELECT_DELAY_SHORT ∧
    (pca9641_arbitrate (Int.ofNat r) w st).2.2 =
      [Xfer.readReg PCA9641_CONTR (Int.ofNat r),
       Xfer.writeMulti (PCA9641_CONTR ||| PCA9641_AUTO_INC)
         (PCA9641_CTL_LOCK_REQ ||| PCA9641_CTL_BUS_CONNECT |||
           PCA9641_CTL_IDLE_TIMER_DIS)
         RESERVE_TIME] := by
  have h0 : ¬ Int.ofNat r < 0 := Int.not_lt.mpr (Int.ofNat_nonneg r)
  unfold pca9641_arbitrate
  rw [if_neg h0]
  simp [Int.toNat_ofNat, hc, hr]

/-- Witness for C3 at r = 0 (idle register). -/
theorem arbitrate_idle_requests_bus_witness :
    (0 : Nat) < 256 ∧ connected 0 = false ∧ requested 0 = false ∧
    ((pca9641_arbitrate (Int.ofNat 0) 0 ⟨0⟩).1 = 0 ∧
     (pca9641_arbitrate (Int.ofNat 0) 0 ⟨0⟩).2.1.select_timeout =
       SELECT_DELAY_SHORT ∧
     (pca9641_arbitrate (Int.ofNat 0) 0 ⟨0⟩).2.2 =
       [Xfer.readReg PCA9641_CONTR (Int.ofNat 0),
        Xfer.writeMulti (PCA9641_CONTR ||| PCA9641_AUTO_INC)
          (PCA9641_CTL_LOCK_REQ ||| PCA9641_CTL_BUS_CONNECT |||
            PCA9641_CTL_IDLE_TIMER_DIS)
          RESERVE_TIME]) :=
  ⟨by decide, by decide, by decide,
    arbitrate_idle_requests_bus 0 0 ⟨0⟩ (by decide) (by decide) (by decide)⟩

/-- Counterexample to claim C4 as stated: with a successful read of 0x00
(so arbitrate issues the block write) and a transport error -5 on that
write, arbitrate still returns 0, not -5: the C code discards the return
value of pca9641_reg_write_multi, so a write error is not propagated. -/
theorem arbitrate_write_error_discarded_cex :
    (pca9641_arbitrate 0 (-5) ⟨0⟩).2.2 =
      [Xfer.readReg PCA9641_CONTR 0,
       Xfer.writeMulti (PCA9641_CONTR ||| PCA9641_AUTO_INC)
         (PCA9641_CTL_LOCK_REQ ||| PCA9641_CTL_BUS_CONNECT |||
           PCA9641_CTL_IDLE_TIMER_DIS)
         RESERVE_TIME] ∧
    (pca9641_arbitrate 0 (-5) ⟨0⟩).1 = 0 ∧ (0 : Int) ≠ -5 := by
  refine ⟨rfl, rfl, by decide⟩

/-- One-step unfolding of the polling loop at positive fuel. -/
theorem selectFuel_succ (reads wr : Nat → Int) (jif : Nat → Nat)
    (deadline : Nat) (st : Pca9641) (n fuel : Nat) :
    selectFuel reads wr jif deadline st n (fuel + 1) =
      if (pca9641_arbitrate (reads n) (wr n) st).1 ≠ 0 then
        some ((if (pca9641_arbitrate (reads n) (wr n) st).1 < 0 then
                 (pca9641_arbitrate (reads n) (wr n) st).1 else 0),
          (pca9641_arbitrate (reads n) (wr n) st).2.1,
          [(pca9641_arbitrate (reads n) (wr n) st).2.2])
      else if jif n ≤ deadline then
        match selectFuel reads wr jif deadline
            (pca9641_arbitrate (reads n) (wr n) st).2.1 (n + 1) fuel with
        | none => none
        | some (res, stf, tr) =>
          some (res, stf, (pca9641_arbitrate (reads n) (wr n) st).2.2 :: tr)
      else
        some (-ETIMEDOUT, (pca9641_arbitrate (reads n) (wr n) st).2.1,
          [(pca9641_arbitrate (reads n) (wr n) st).2.2]) := rfl

/-- If the control-register read succeeds and does not show connected,
arbitrate returns 0 (NotAcquired), whatever the state and write result. -/
theorem arbitrate_notacquired (r w : Int) (st : Pca9641) (h0 : 0 ≤ r)
    (hnc : connected r.toNat = false) :
    (pca9641_arbitrate r w st).1 = 0 := by
  unfold pca9641_arbitrate
  rw [if_neg (Int.not_lt.mpr h0)]
  simp only [hnc]
  by_cases hr : requested r.toNat <;> simp [hr]

/-- If the first m iterations starting at index n read successfully
without showing connected and stay within the deadline, and the read of
iteration n+m fails, the polling loop returns that read error after
exactly m+1 iterations, for any fuel above m. -/
theorem selectFuel_read_error_aux (reads wr : Nat → Int) (jif : Nat → Nat)
    (deadline : Nat) :
    ∀ m n st fuel, m < fuel →
      (∀ i, i < m →
        0 ≤ reads (n + i) ∧ connected (reads (n + i)).toNat = false) →
      (∀ i, i < m → jif (n + i) ≤ deadline) →
      reads (n + m) < 0 →
      ∃ stf tr, selectFuel reads wr jif deadline st n fuel =
        some (reads (n + m), stf, tr) ∧ tr.length = m + 1 := by
  intro m
  induction m with
  | zero =>
    intro n st fuel hfuel hok hcont herr
    obtain ⟨f, rfl⟩ : ∃ f, fuel = f + 1 := ⟨fuel - 1, by omega⟩
    simp only [Nat.add_zero] at herr ⊢
    have hne : reads n ≠ 0 := by omega
    refine ⟨st, [[Xfer.readReg PCA9641_CONTR (reads n)]], ?_, rfl⟩
    rw [selectFuel_succ]
    simp [pca9641_arbitrate, herr, hne]
  | succ m ih =>
    intro n st fuel hfuel hok hcont herr
    obtain ⟨f, rfl⟩ : ∃ f, fuel = f + 1 := ⟨fuel - 1, by omega⟩
    have h0 := hok 0 (by omega)
    rw [Nat.add_zero] at h0
    have h1 : (pca9641_arbitrate (reads n) (wr n) st).1 = 0 :=
      arbitrate_notacquired _ _ _ h0.1 h0.2
    have h2 : jif n ≤ deadline := by
      have := hcont 0 (by omega)
      simpa using this
    obtain ⟨stf, tr, htr, hlen⟩ :=
      ih (n + 1) (pca9641_arbitrate (reads n) (wr n) st).2.1 f (by omega)
        (fun i hi => by
          have := hok (i + 1) (by omega)
          rwa [show n + (i + 1) = n + 1 + i from by omega] at this)
        (fun i hi => by
          have := hcont (i + 1) (by omega)
          rwa [show n + (i + 1) = n + 1 + i from by omega] at this)
        (by rwa [show n + (m + 1) = n + 1 + m from by omega] at herr)
    refine ⟨stf, (pca9641_arbitrate (reads n) (wr n) st).2.2 :: tr, ?_,
      by simp [hlen]⟩
    rw [selectFuel_succ, if_neg (not_not_intro h1), if_pos h2, htr,
      show n + 1 + m = n + (m + 1) from by omega]

/-- Claim C4 (amended): a transport error during the control-register read
is propagated verbatim as arbitrate's result, whatever the driver state and
write result; and whichever poll iteration m the read error strikes on —
reached after m successful polls that showed neither a connected register
nor a passed deadline — the select loop returns that error immediately,
performing exactly m+1 iterations and no further ones.  Transport errors
during the block write are discarded. -/
theorem select_propagates_read_error (reads wr : Nat → Int)
    (jif : Nat → Nat) (deadline : Nat) (st : Pca9641) (m fuel : Nat)
    (hfuel : m < fuel)
    (hok : ∀ i, i < m → 0 ≤ reads i ∧ connected (reads i).toNat = false)
    (hcont : ∀ i, i < m → jif i ≤ deadline)
    (herr : reads m < 0) :
    (∀ (w : Int) (st0 : Pca9641),
      (pca9641_arbitrate (reads m) w st0).1 = reads m) ∧
    ∃ stf tr, selectFuel reads wr jif deadline st 0 fuel =
      some (reads m, stf, tr) ∧ tr.length = m + 1 := by
  constructor
  · intro w st0
    simp [pca9641_arbitrate, herr]
  · have h := selectFuel_read_error_aux reads wr jif deadline m 0 st fuel
      hfuel (fun i hi => by simpa using hok i hi)
      (fun i hi => by simpa using hcont i hi) (by simpa using herr)
    simpa using h

/-- Witness for the amended C4: the first poll reads LOCK_REQ (requested),
the second poll's read fails with -5; select returns -5 after exactly two
iterations. -/
theorem select_propagates_read_error_witness :
    (1 : Nat) < 3 ∧ (-5 : Int) < 0 ∧
    ((∀ (w : Int) (st0 : Pca9641),
        (pca9641_arbitrate (-5) w st0).1 = -5) ∧
     ∃ stf tr,
        selectFuel (fun n => if n = 0 then 1 else -5) (fun _ => 0)
            (fun _ => 0) 0 ⟨0⟩ 0 3 = some (-5, stf, tr) ∧
        tr.length = 1 + 1) :=
  ⟨by decide, by decide,
    select_propagates_read_error (fun n => if n = 0 then 1 else -5)
      (fun _ => 0) (fun _ => 0) 0 ⟨0⟩ 1 3 (by decide)
      (fun i hi => by
        have h0 : i = 0 := by omega
        subst h0
        exact ⟨by decide, by decide⟩)
      (fun i hi => by
        have h0 : i = 0 := by omega
        subst h0
        decide)
      (by decide)⟩

/-- Claim C6: release performs exactly one register write, value 0x00 to
CONTROL, and nothing else; applying release twice leaves the same register
file as applying it once (idempotence), for every prior register state,
including states in which the bus was never acquired. -/
theorem release_single_zero_write_idempotent (e1 e2 : Int)
    (regs : Nat → Nat) (chan : Nat) :
    (pca9641_release_chan e1 regs chan).2.2 =
      [Xfer.writeReg PCA9641_CONTR 0x00] ∧
    (pca9641_release_chan e2
        (pca9641_release_chan e1 regs chan).2.1 chan).2.1 =
      (pca9641_release_chan e1 regs chan).2.1 := by
  refine ⟨rfl, ?_⟩
  funext a
  by_cases h : a = PCA9641_CONTR <;>
    simp [pca9641_release_chan, pca9641_release_bus, applyWrite, h]

/-- Claim C9: release reports success (returns 0) for every transport
result of its write of 0x00 to CONTROL, including transport errors: the
error result is discarded and never surfaced to the caller. -/
theorem release_ignores_write_error (e : Int) (regs : Nat → Nat)
    (chan : Nat) :
    (pca9641_release_chan e regs chan).1 = 0 := rfl

/-- Claim C10: the channel-index argument is ignored by both select and
release: with identical transport and clock behaviour, two runs with
different channel indices produce identical results, final states and
register-transaction logs. -/
theorem chan_argument_ignored (HZ : Nat) (reads wr : Nat → Int)
    (jif : Nat → Nat) (jiffies0 : Nat) (st : Pca9641) (e : Int)
    (regs : Nat → Nat) (chan1 chan2 fuel : Nat) :
    pca9641_select_chan HZ reads wr jif jiffies0 st chan1 fuel =
      pca9641_select_chan HZ reads wr jif jiffies0 st chan2 fuel ∧
    pca9641_release_chan e regs chan1 = pca9641_release_chan e regs chan2 :=
  ⟨rfl, rfl⟩

/-- If every read succeeds without showing connected, the polling loop
returns -ETIMEDOUT using at most k+1 iterations whenever the (n+k)-th
loop-condition check lies past the deadline. -/
theorem selectFuel_times_out (reads wr : Nat → Int) (jif : Nat → Nat)
    (deadline : Nat) (hok : ∀ n, 0 ≤ reads n)
    (hnc : ∀ n, connected (reads n).toNat = false) :
    ∀ k n st, deadline < jif (n + k) →
      ∃ stf tr, selectFuel reads wr jif deadline st n (k + 1) =
        some (-ETIMEDOUT, stf, tr) := by
  intro k
  induction k with
  | zero =>
    intro n st hd
    have h1 : (pca9641_arbitrate (reads n) (wr n) st).1 = 0 :=
      arbitrate_notacquired _ _ _ (hok n) (hnc n)
    have h2 : ¬ jif n ≤ deadline := Nat.not_le.mpr (by simpa using hd)
    refine ⟨(pca9641_arbitrate (reads n) (wr n) st).2.1,
      [(pca9641_arbitrate (reads n) (wr n) st).2.2], ?_⟩
    rw [selectFuel_succ, if_neg (by simp [h1]), if_neg h2]
  | succ k ih =>
    intro n st hd
    have h1 : (pca9641_arbitrate (reads n) (wr n) st).1 = 0 :=
      arbitrate_notacquired _ _ _ (hok n) (hnc n)
    by_cases h2 : jif n ≤ deadline
    · obtain ⟨stf, tr, htr⟩ :=
        ih (n + 1) (pca9641_arbitrate (reads n) (wr n) st).2.1
          (by rw [show n + 1 + k = n + (k + 1) from by omega]; exact hd)
      refine ⟨stf, (pca9641_arbitrate (reads n) (wr n) st).2.2 :: tr, ?_⟩
      rw [selectFuel_succ, if_neg (by simp [h1]), if_pos h2, htr]
    · refine ⟨(pca9641_arbitrate (reads n) (wr n) st).2.1,
        [(pca9641_arbitrate (reads n) (wr n) st).2.2], ?_⟩
      rw [selectFuel_succ, if_neg (by simp [h1]), if_neg h2]

/-- Claim C5: if no transport error occurs and the register never shows
connected, the select polling loop terminates and returns -ETIMEDOUT,
within N+1 iterations where N is any loop-condition check whose jiffies
value lies past the deadline: the loop is bounded by the wall-clock
deadline regardless of the retry delays taken. -/
theorem select_times_out_within_deadline (reads wr : Nat → Int)
    (jif : Nat → Nat) (deadline N : Nat) (st : Pca9641)
    (hok : ∀ n, 0 ≤ reads n)
    (hnc : ∀ n, connected (reads n).toNat = false)
    (hN : deadline < jif N) :
    ∃ stf tr, selectFuel reads wr jif deadline st 0 (N + 1) =
      some (-ETIMEDOUT, stf, tr) :=
  selectFuel_times_out reads wr jif deadline hok hnc N 0 st
    (by simpa using hN)

/-- Witness for C5: the register always reads LOCK_REQ only, the clock
advances one jiffy per check, deadline 2; the loop times out with fuel 4. -/
theorem select_times_out_within_deadline_witness :
    (∀ n : Nat, (0 : Int) ≤ (fun _ => (1 : Int)) n) ∧
    (∀ n : Nat, connected ((fun _ => (1 : Int)) n).toNat = false) ∧
    (2 : Nat) < (fun n : Nat => n) 3 ∧
    ∃ stf tr, selectFuel (fun _ => 1) (fun _ => 0) (fun n => n) 2 ⟨0⟩ 0
        (3 + 1) = some (-ETIMEDOUT, stf, tr) :=
  ⟨fun _ => show (0 : Int) ≤ 1 by decide,
    fun _ => show connected ((1 : Int)).toNat = false by decide,
    by decide,
    select_times_out_within_deadline (fun _ => 1) (fun _ => 0) (fun n => n)
      2 3 ⟨0⟩ (fun _ => show (0 : Int) ≤ 1 by decide)
      (fun _ => show connected ((1 : Int)).toNat = false by decide)
      (by decide)⟩

/-- The return value and the transaction log of arbitrate do not depend on
the incoming driver state (the state is only written, never read). -/
theorem arbitrate_result_log_indep (r w : Int) (st1 st2 : Pca9641) :
    (pca9641_arbitrate r w st1).1 = (pca9641_arbitrate r w st2).1 ∧
    (pca9641_arbitrate r w st1).2.2 = (pca9641_arbitrate r w st2).2.2 := by
  by_cases h1 : r < 0 <;> by_cases h2 : connected r.toNat = true <;>
    by_cases h3 : requested r.toNat = true <;>
    simp [pca9641_arbitrate, h1, h2, h3]

/-- When arbitrate returns 0 it has overwritten select_timeout, so the
resulting state does not depend on the incoming state. -/
theorem arbitrate_state_indep (r w : Int) (st1 st2 : Pca9641)
    (h : (pca9641_arbitrate r w st1).1 = 0) :
    (pca9641_arbitrate r w st1).2.1 = (pca9641_arbitrate r w st2).2.1 := by
  by_cases h1 : r < 0
  · simp [pca9641_arbitrate, h1] at h
    omega
  · by_cases h2 : connected r.toNat = true
    · simp [pca9641_arbitrate, h1, h2] at h
    · by_cases h3 : requested r.toNat = true <;>
        simp [pca9641_arbitrate, h1, h2, h3]

/-- Claim C7: the retry delay (select_timeout) left behind by a previous
select call is never read or acted upon before being rewritten: the return
value and the register-transaction trace of the polling loop are identical
for any two initial select_timeout values. -/
theorem select_independent_of_stale_retry_delay (reads wr : Nat → Int)
    (jif : Nat → Nat) (deadline : Nat) (v1 v2 n fuel : Nat) :
    (selectFuel reads wr jif deadline ⟨v1⟩ n fuel).map
        (fun p => (p.1, p.2.2)) =
    (selectFuel reads wr jif deadline ⟨v2⟩ n fuel).map
        (fun p => (p.1, p.2.2)) := by
  cases fuel with
  | zero => rfl
  | succ m =>
    have hr := arbitrate_result_log_indep (reads n) (wr n) ⟨v1⟩ ⟨v2⟩
    by_cases h0 : (pca9641_arbitrate (reads n) (wr n) (⟨v1⟩ : Pca9641)).1 = 0
    · have h0b : (pca9641_arbitrate (reads n) (wr n) (⟨v2⟩ : Pca9641)).1 = 0 :=
        hr.1.symm.trans h0
      have hst := arbitrate_state_indep (reads n) (wr n) ⟨v1⟩ ⟨v2⟩ h0
      rw [selectFuel_succ, selectFuel_succ, if_neg (not_not_intro h0),
        if_neg (not_not_intro h0b), hst, hr.2]
    · have h0b : (pca9641_arbitrate (reads n) (wr n) (⟨v2⟩ : Pca9641)).1 ≠ 0 := by
        rw [← hr.1]; exact h0
      rw [selectFuel_succ, selectFuel_succ, if_pos h0, if_pos h0b]
      simp [hr.1, hr.2]

/-- The transaction log of a single arbitrate call is either the lone
control-register read (read error, connected, or requested), or that read
followed by the lone block write (idle register). -/
theorem arbitrate_log_shape (r w : Int) (st : Pca9641) :
    ((pca9641_arbitrate r w st).2.2 = [Xfer.readReg PCA9641_CONTR r] ∧
      (r < 0 ∨ connected r.toNat = true ∨ requested r.toNat = true)) ∨
    ((pca9641_arbitrate r w st).2.2 =
        [Xfer.readReg PCA9641_CONTR r,
         Xfer.writeMulti (PCA9641_CONTR ||| PCA9641_AUTO_INC)
           (PCA9641_CTL_LOCK_REQ ||| PCA9641_CTL_BUS_CONNECT |||
             PCA9641_CTL_IDLE_TIMER_DIS) RESERVE_TIME] ∧
      0 ≤ r ∧ connected r.toNat = false ∧ requested r.toNat = false) := by
  by_cases h1 : r < 0
  · exact Or.inl ⟨by simp [pca9641_arbitrate, h1], Or.inl h1⟩
  · by_cases h2 : connected r.toNat = true
    · exact Or.inl ⟨by simp [pca9641_arbitrate, h1, h2], Or.inr (Or.inl h2)⟩
    · by_cases h3 : requested r.toNat = true
      · exact Or.inl ⟨by simp [pca9641_arbitrate, h1, h2, h3],
          Or.inr (Or.inr h3)⟩
      · exact Or.inr ⟨by simp [pca9641_arbitrate, h1, h2, h3], by omega,
          by simpa using h2, by simpa using h3⟩

/-- Counterexample to claim C8 as stated: in a run in which every control
register read returns 0x00, the block write is issued on the second and
third iterations as well, not on the first iteration only. -/
theorem select_write_not_first_iteration_only_cex :
    (selectFuel (fun _ => 0) (fun _ => 0) (fun n => n) 1 ⟨0⟩ 0 3).map
        (fun p => p.2.2) =
      some [[Xfer.readReg PCA9641_CONTR 0,
             Xfer.writeMulti (PCA9641_CONTR ||| PCA9641_AUTO_INC)
               (PCA9641_CTL_LOCK_REQ ||| PCA9641_CTL_BUS_CONNECT |||
                 PCA9641_CTL_IDLE_TIMER_DIS) RESERVE_TIME],
            [Xfer.readReg PCA9641_CONTR 0,
             Xfer.writeMulti (PCA9641_CONTR ||| PCA9641_AUTO_INC)
               (PCA9641_CTL_LOCK_REQ ||| PCA9641_CTL_BUS_CONNECT |||
                 PCA9641_CTL_IDLE_TIMER_DIS) RESERVE_TIME],
            [Xfer.readReg PCA9641_CONTR 0,
             Xfer.writeMulti (PCA9641_CONTR ||| PCA9641_AUTO_INC)
               (PCA9641_CTL_LOCK_REQ ||| PCA9641_CTL_BUS_CONNECT |||
                 PCA9641_CTL_IDLE_TIMER_DIS) RESERVE_TIME]] := rfl

/-- Claim C8 (amended): every iteration of the select polling loop performs
exactly one register read, issued before any write or sleep of that
iteration; an iteration additionally issues the single block write exactly
when its read succeeded showing neither connected nor requested — which
can happen on any iteration, not only the first. -/
theorem select_iteration_log_shape (reads wr : Nat → Int) (jif : Nat → Nat)
    (deadline : Nat) (st : Pca9641) (n fuel : Nat) (res : Int)
    (stf : Pca9641) (tr : List (List Xfer))
    (h : selectFuel reads wr jif deadline st n fuel = some (res, stf, tr)) :
    ∀ l ∈ tr, ∃ r : Int,
      (l = [Xfer.readReg PCA9641_CONTR r] ∧
        (r < 0 ∨ connected r.toNat = true ∨ requested r.toNat = true)) ∨
      (l = [Xfer.readReg PCA9641_CONTR r,
            Xfer.writeMulti (PCA9641_CONTR ||| PCA9641_AUTO_INC)
              (PCA9641_CTL_LOCK_REQ ||| PCA9641_CTL_BUS_CONNECT |||
                PCA9641_CTL_IDLE_TIMER_DIS) RESERVE_TIME] ∧
        0 ≤ r ∧ connected r.toNat = false ∧ requested r.toNat = false) := by
  induction fuel generalizing st n res stf tr with
  | zero => simp [selectFuel] at h
  | succ m ih =>
    rw [selectFuel_succ] at h
    by_cases h0 : (pca9641_arbitrate (reads n) (wr n) st).1 ≠ 0
    · rw [if_pos h0] at h
      simp only [Option.some.injEq, Prod.mk.injEq] at h
      obtain ⟨-, -, htr⟩ := h
      intro l hl
      rw [← htr] at hl
      have hls : l = (pca9641_arbitrate (reads n) (wr n) st).2.2 := by
        simpa using hl
      exact ⟨reads n, by rw [hls]; exact arbitrate_log_shape _ _ _⟩
    · rw [if_neg h0] at h
      by_cases h2 : jif n ≤ deadline
      · rw [if_pos h2] at h
        cases hrec : selectFuel reads wr jif deadline
            (pca9641_arbitrate (reads n) (wr n) st).2.1 (n + 1) m with
        | none => rw [hrec] at h; simp at h
        | some p =>
          obtain ⟨res0, stf0, tr0⟩ := p
          rw [hrec] at h
          simp only [Option.some.injEq, Prod.mk.injEq] at h
          obtain ⟨-, -, htr⟩ := h
          intro l hl
          rw [← htr] at hl
          rcases List.mem_cons.mp hl with hls | hls
          · exact ⟨reads n, by rw [hls]; exact arbitrate_log_shape _ _ _⟩
          · exact ih _ _ _ _ _ hrec l hls
      · rw [if_neg h2] at h
        simp only [Option.some.injEq, Prod.mk.injEq] at h
        obtain ⟨-, -, htr⟩ := h
        intro l hl
        rw [← htr] at hl
        have hls : l = (pca9641_arbitrate (reads n) (wr n) st).2.2 := by
          simpa using hl
        exact ⟨reads n, by rw [hls]; exact arbitrate_log_shape _ _ _⟩

/-- Witness for the amended C8: the one-iteration timed-out run whose
single iteration read 0x00 and issued the block write. -/
theorem select_iteration_log_shape_witness :
    ∃ r : Int,
      ([Xfer.readReg PCA9641_CONTR 0,
        Xfer.writeMulti (PCA9641_CONTR ||| PCA9641_AUTO_INC)
          (PCA9641_CTL_LOCK_REQ ||| PCA9641_CTL_BUS_CONNECT |||
            PCA9641_CTL_IDLE_TIMER_DIS) RESERVE_TIME] =
          [Xfer.readReg PCA9641_CONTR r] ∧
        (r < 0 ∨ connected r.toNat = true ∨ requested r.toNat = true)) ∨
      ([Xfer.readReg PCA9641_CONTR 0,
        Xfer.writeMulti (PCA9641_CONTR ||| PCA9641_AUTO_INC)
          (PCA9641_CTL_LOCK_REQ ||| PCA9641_CTL_BUS_CONNECT |||
            PCA9641_CTL_IDLE_TIMER_DIS) RESERVE_TIME] =
          [Xfer.readReg PCA9641_CONTR r,
           Xfer.writeMulti (PCA9641_CONTR ||| PCA9641_AUTO_INC)
             (PCA9641_CTL_LOCK_REQ ||| PCA9641_CTL_BUS_CONNECT |||
               PCA9641_CTL_IDLE_TIMER_DIS) RESERVE_TIME] ∧
        0 ≤ r ∧ connected r.toNat = false ∧ requested r.toNat = false) :=
  select_iteration_log_shape (fun _ => 0) (fun _ => 0) (fun n => n + 1) 0
    ⟨0⟩ 0 1 (-ETIMEDOUT) ⟨0⟩
    [[Xfer.readReg PCA9641_CONTR 0,
      Xfer.writeMulti (PCA9641_CONTR ||| PCA9641_AUTO_INC)
        (PCA9641_CTL_LOCK_REQ ||| PCA9641_CTL_BUS_CONNECT |||
          PCA9641_CTL_IDLE_TIMER_DIS) RESERVE_TIME]] rfl _
    (List.mem_singleton.mpr rfl)

end PCA9641
